import Mathlib

/-!
Verification of `commit.py` from the luxtest_renders repository.

The script is a thin orchestrator around an external version-control tool
(`git`).  We embed it shallowly:

* the outside world is a `GitWorld`, a function answering each subprocess
  invocation (keyed by working directory and full argument list) with either
  a stdout string (exit code 0) or a nonzero exit code;
* observable side effects (subprocess invocations, temporary-directory
  creation/removal, file writes) are collected in a trace of `Event`s;
* Python exceptions are modelled with `Except Err`: `subprocess.run` with
  `check=True` raises `CalledProcessError` on a nonzero exit, a missing
  dictionary key raises `KeyError`;
* each function returns its trace together with its outcome, and a raised
  exception propagates exactly as in Python; the `with TemporaryDirectory`
  block appends the removal event on both the normal and the raising path,
  mirroring the context-manager semantics.

Paths are plain strings; `os.path.join` and `os.path.dirname` are modelled
after their posixpath implementations, and `str.strip` (with no argument:
drop leading and trailing whitespace) by `pyStrip` over the character list.
-/

namespace Commit

/-- Outcome of one subprocess invocation of the external tool: exit code 0
with captured stdout, or a nonzero exit code. -/
inductive GitOutcome where
  | success (stdout : String)
  | failure (exitCode : Nat)
  deriving DecidableEq, Repr

/-- The environment: answers every invocation, keyed by the working
directory (`cwd=repo_dir`) and the full argument vector. -/
def GitWorld : Type := String → List String → GitOutcome

/-- Observable side effects of the script. -/
inductive Event where
  | gitCall (repoDir : String) (fullArgs : List String)
  | tempDirCreate (tempd : String)
  | fileWrite (path : String) (contents : String)
  | tempDirRemove (tempd : String)
  deriving DecidableEq, Repr

/-- Python exceptions that the script can raise. -/
inductive Err where
  | calledProcessError (repoDir : String) (fullArgs : List String) (exitCode : Nat)
  | keyError (key : String)
  deriving DecidableEq, Repr

/-- `git(repo_dir, args, check=True)`: runs `["git"] + args` in `repo_dir`;
with `check=True` a nonzero exit raises `CalledProcessError`.  On success the
captured stdout is returned (capturing is configured by `git_stdout`; for
uncaptured calls the stdout value is simply unused). -/
def git (w : GitWorld) (repo_dir : String) (args : List String) :
    List Event × Except Err String :=
  let full_args := "git" :: args
  match w repo_dir full_args with
  | GitOutcome.success out =>
      ([Event.gitCall repo_dir full_args], Except.ok out)
  | GitOutcome.failure code =>
      ([Event.gitCall repo_dir full_args],
        Except.error (Err.calledProcessError repo_dir full_args code))

/-- Python `str.startswith(pre)` over the character list. -/
def pyStartsWith (s pre : String) : Bool := pre.data.isPrefixOf s.data

/-- Python `str.endswith(post)` over the character list. -/
def pyEndsWith (s post : String) : Bool := post.data.isSuffixOf s.data

/-- Python slicing `s[n:]` over the character list. -/
def pyDrop (s : String) (n : Nat) : String := String.mk (s.data.drop n)

/-- Python `str.strip()`: remove leading and trailing whitespace. -/
def pyStrip (s : String) : String :=
  String.mk
    (((s.data.dropWhile Char.isWhitespace).reverse.dropWhile Char.isWhitespace).reverse)

/-- `git_stdout`: runs `git` capturing output and returns `proc.stdout.strip()`. -/
def git_stdout (w : GitWorld) (repo_dir : String) (args : List String) :
    List Event × Except Err String :=
  let r := git w repo_dir args
  (r.1, r.2.map pyStrip)

/-- `get_git_hash(repo_dir, commit="HEAD")`. -/
def get_git_hash (w : GitWorld) (repo_dir : String) :
    List Event × Except Err String :=
  git_stdout w repo_dir ["rev-parse", "HEAD"]

/-- `git_commit_subject(repo_dir, commit="HEAD")`. -/
def git_commit_subject (w : GitWorld) (repo_dir : String) :
    List Event × Except Err String :=
  git_stdout w repo_dir ["log", "-1", "--format=%s", "HEAD"]

/-- posixpath `os.path.join` for a single pair of components. -/
def os_path_join (a b : String) : String :=
  if pyStartsWith b "/" then b
  else if a = "" ∨ pyEndsWith a "/" then a ++ b
  else a ++ "/" ++ b

/-- Drop trailing slash characters (used by `os.path.dirname`). -/
def rstripSlashes (l : List Char) : List Char :=
  (l.reverse.dropWhile (fun c => c = '/')).reverse

/-- The part of the character list up to and including the last slash
(empty when there is no slash), i.e. `p[:p.rfind(sep)+1]`. -/
def headToLastSlash : List Char → List Char
  | [] => []
  | c :: rest =>
      if '/' ∈ rest then c :: headToLastSlash rest
      else if c = '/' then [c]
      else []

/-- posixpath `os.path.dirname`. -/
def dirname (p : String) : String :=
  let head := headToLastSlash p.data
  let head :=
    if head ≠ [] ∧ head.any (fun c => c ≠ '/') then rstripSlashes head else head
  String.mk head

/-- The ambient configuration of the script: the directory holding
`commit.py` (`THIS_DIR`) and the optional `USD_ROOT` environment variable. -/
structure Config where
  thisDir : String
  usdRoot : Option String
  deriving DecidableEq, Repr

/-- `RENDERS_REPO = THIS_DIR`. -/
def RENDERS_REPO (c : Config) : String := c.thisDir

/-- `LUXTEST_REPO = os.path.dirname(THIS_DIR)`. -/
def LUXTEST_REPO (c : Config) : String := dirname c.thisDir

/-- `DEFAULT_USD_REPO = os.path.join(os.path.dirname(LUXTEST_REPO), "usd-ci", "USD")`. -/
def DEFAULT_USD_REPO (c : Config) : String :=
  os_path_join (os_path_join (dirname (LUXTEST_REPO c)) "usd-ci") "USD"

/-- `USD_REPO = os.environ.get("USD_ROOT", DEFAULT_USD_REPO)`. -/
def USD_REPO (c : Config) : String := c.usdRoot.getD (DEFAULT_USD_REPO c)

/-- `REPO_NAMES_TO_DIRS`, an insertion-ordered dictionary. -/
def REPO_NAMES_TO_DIRS (c : Config) : List (String × String) :=
  [("USD", USD_REPO c), ("luxtest", LUXTEST_REPO c)]

/-- `get_repo_info(repo_name)`: dictionary lookup (raising `KeyError` when
absent), then `rev-parse HEAD` and `log -1 --format=%s HEAD` against that
directory, returning the formatted info string. -/
def get_repo_info (w : GitWorld) (c : Config) (repo_name : String) :
    List Event × Except Err String :=
  match (REPO_NAMES_TO_DIRS c).lookup repo_name with
  | none => ([], Except.error (Err.keyError repo_name))
  | some repo_dir =>
    let r1 := get_git_hash w repo_dir
    match r1.2 with
    | Except.error e => (r1.1, Except.error e)
    | Except.ok commit_hash =>
      let r2 := git_commit_subject w repo_dir
      match r2.2 with
      | Except.error e => (r1.1 ++ r2.1, Except.error e)
      | Except.ok message_subject =>
          (r1.1 ++ r2.1,
            Except.ok (repo_name ++ ":\n" ++ message_subject ++ "\n" ++ commit_hash))

/-- The list comprehension `[get_repo_info(name) for name in REPO_NAMES_TO_DIRS]`:
evaluated left to right, the first exception propagating. -/
def gatherRepoInfos (w : GitWorld) (c : Config) :
    List String → List Event × Except Err (List String)
  | [] => ([], Except.ok [])
  | name :: rest =>
    let r1 := get_repo_info w c name
    match r1.2 with
    | Except.error e => (r1.1, Except.error e)
    | Except.ok info =>
      let r2 := gatherRepoInfos w c rest
      (r1.1 ++ r2.1, r2.2.map (fun l => info :: l))

/-- `commit_renders(message="", extra_paths=())`.  `cwd` is `os.getcwd()` and
`tempd` the directory name the OS hands to `tempfile.TemporaryDirectory`. -/
def commit_renders (w : GitWorld) (c : Config) (cwd tempd : String)
    (message : String) (extra_paths : List String) :
    List Event × Except Err Unit :=
  let rInfo := gatherRepoInfos w c ((REPO_NAMES_TO_DIRS c).map Prod.fst)
  match rInfo.2 with
  | Except.error e => (rInfo.1, Except.error e)
  | Except.ok message_parts =>
    let commit_args := ["commit", "-a"] ++ extra_paths.map (fun p => os_path_join cwd p)
    if message ≠ "" then
      -- message_parts.insert(0, message); commit_args[1:1] = ["-m", full_message]
      let full_message := String.intercalate "\n\n" (message :: message_parts)
      let commit_args := commit_args.take 1 ++ ["-m", full_message] ++ commit_args.drop 1
      let rGit := git w (RENDERS_REPO c) commit_args
      (rInfo.1 ++ rGit.1, rGit.2.map (fun _ => ()))
    else
      -- with tempfile.TemporaryDirectory(...) as tempd: the removal event is
      -- appended on the normal path and on the raising path alike
      let template_path := os_path_join tempd "git_commit_template.txt"
      let full_message :=
        String.intercalate "\n\n" ("<insert custom message here>" :: message_parts)
      let commit_args := ["-c", "commit.template=" ++ template_path] ++ commit_args
      let rGit := git w (RENDERS_REPO c) commit_args
      (rInfo.1
          ++ [Event.tempDirCreate tempd, Event.fileWrite template_path full_message]
          ++ rGit.1 ++ [Event.tempDirRemove tempd],
        rGit.2.map (fun _ => ()))

/-- The namespace produced by `parser.parse_args`. -/
structure ParsedArgs where
  message : String
  extra_paths : List String
  deriving DecidableEq, Repr

/-- Argument scan for the parser of `get_parser()`: option `-m` (alias
`--message`) with one value (default `""`), positionals collected into
`extra_paths`.  `argparse` raises `SystemExit(2)` on an unrecognized option or
a missing option value and `SystemExit(0)` on `-h` and `--help`; these exits
are the `Except.error` codes. -/
def parse_args_go (message : String) (positional : List String) :
    List String → Except Nat ParsedArgs
  | [] => Except.ok ⟨message, positional.reverse⟩
  | "--" :: rest => Except.ok ⟨message, positional.reverse ++ rest⟩
  | "-h" :: _ => Except.error 0
  | "--help" :: _ => Except.error 0
  | "-m" :: v :: rest => parse_args_go v positional rest
  | ["-m"] => Except.error 2
  | "--message" :: v :: rest => parse_args_go v positional rest
  | ["--message"] => Except.error 2
  | tok :: rest =>
    if pyStartsWith tok "--message=" then
      parse_args_go (pyDrop tok 10) positional rest
    else if pyStartsWith tok "-m" ∧ ¬ pyStartsWith tok "--" then
      parse_args_go (pyDrop tok 2) positional rest
    else if pyStartsWith tok "-" ∧ tok ≠ "-" then
      Except.error 2
    else
      parse_args_go message (tok :: positional) rest

/-- `parser.parse_args(argv)` with `-m` defaulting to the empty string. -/
def parse_args (argv : List String) : Except Nat ParsedArgs :=
  parse_args_go "" [] argv

/-- `main(argv)`: parse (a parse failure is `SystemExit`, uncaught), then run
`commit_renders`; any exception from it is caught, its traceback printed, and
`1` returned; otherwise `0` is returned. -/
def main (w : GitWorld) (c : Config) (cwd tempd : String) (argv : List String) :
    List Event × Except Nat Nat :=
  match parse_args argv with
  | Except.error code => ([], Except.error code)
  | Except.ok args =>
    let r := commit_renders w c cwd tempd args.message args.extra_paths
    match r.2 with
    | Except.ok _ => (r.1, Except.ok 0)
    | Except.error _ => (r.1, Except.ok 1)

/-! ### Test fixtures for concrete witnesses -/

/-- A world where every invocation succeeds: `rev-parse` answers `abc123`,
the subject query answers `a subject` (each with a trailing newline, as the
real tool prints), anything else succeeds with empty output. -/
def testWorld : GitWorld := fun _ args =>
  if args = ["git", "rev-parse", "HEAD"] then GitOutcome.success "abc123\n"
  else if args = ["git", "log", "-1", "--format=%s", "HEAD"] then
    GitOutcome.success "a subject\n"
  else GitOutcome.success ""

/-- A world where every invocation exits nonzero (e.g. no repository). -/
def failWorld : GitWorld := fun _ _ => GitOutcome.failure 128

/-- A world where the info queries succeed but the commit invocation fails. -/
def commitFailWorld : GitWorld := fun _ args =>
  if args = ["git", "rev-parse", "HEAD"] then GitOutcome.success "abc123\n"
  else if args = ["git", "log", "-1", "--format=%s", "HEAD"] then
    GitOutcome.success "a subject\n"
  else GitOutcome.failure 1

/-- A concrete configuration with `USD_ROOT` unset. -/
def testConfig : Config := { thisDir := "/home/u/luxtest/renders", usdRoot := none }

/-! ### Helper lemmas -/

theorem lookup_USD (c : Config) :
    (REPO_NAMES_TO_DIRS c).lookup "USD" = some (USD_REPO c) := rfl

theorem lookup_luxtest (c : Config) :
    (REPO_NAMES_TO_DIRS c).lookup "luxtest" = some (LUXTEST_REPO c) := rfl

theorem git_fst (w : GitWorld) (d : String) (a : List String) :
    (git w d a).1 = [Event.gitCall d ("git" :: a)] := by
  cases h : w d ("git" :: a) <;> simp [git, h]

theorem git_stdout_fst (w : GitWorld) (d : String) (a : List String) :
    (git_stdout w d a).1 = [Event.gitCall d ("git" :: a)] := by
  simp [git_stdout, git_fst]

theorem git_ok (w : GitWorld) (d : String) (a : List String) (out : String)
    (h : w d ("git" :: a) = GitOutcome.success out) :
    git w d a = ([Event.gitCall d ("git" :: a)], Except.ok out) := by
  simp [git, h]

theorem git_err (w : GitWorld) (d : String) (a : List String) (code : Nat)
    (h : w d ("git" :: a) = GitOutcome.failure code) :
    git w d a = ([Event.gitCall d ("git" :: a)],
      Except.error (Err.calledProcessError d ("git" :: a) code)) := by
  simp [git, h]

theorem get_repo_info_ok (w : GitWorld) (c : Config) (n d hsh sub : String)
    (hdir : (REPO_NAMES_TO_DIRS c).lookup n = some d)
    (h1 : w d ["git", "rev-parse", "HEAD"] = GitOutcome.success hsh)
    (h2 : w d ["git", "log", "-1", "--format=%s", "HEAD"] = GitOutcome.success sub) :
    get_repo_info w c n =
      ([Event.gitCall d ["git", "rev-parse", "HEAD"],
        Event.gitCall d ["git", "log", "-1", "--format=%s", "HEAD"]],
       Except.ok (n ++ ":\n" ++ pyStrip sub ++ "\n" ++ pyStrip hsh)) := by
  simp [get_repo_info, hdir, get_git_hash, git_commit_subject, git_stdout, git, Except.map, h1, h2]

theorem gather_ok (w : GitWorld) (c : Config) (hU sU hL sL : String)
    (h1 : w (USD_REPO c) ["git", "rev-parse", "HEAD"] = GitOutcome.success hU)
    (h2 : w (USD_REPO c) ["git", "log", "-1", "--format=%s", "HEAD"] = GitOutcome.success sU)
    (h3 : w (LUXTEST_REPO c) ["git", "rev-parse", "HEAD"] = GitOutcome.success hL)
    (h4 : w (LUXTEST_REPO c) ["git", "log", "-1", "--format=%s", "HEAD"] = GitOutcome.success sL) :
    gatherRepoInfos w c ((REPO_NAMES_TO_DIRS c).map Prod.fst) =
      ([Event.gitCall (USD_REPO c) ["git", "rev-parse", "HEAD"],
        Event.gitCall (USD_REPO c) ["git", "log", "-1", "--format=%s", "HEAD"],
        Event.gitCall (LUXTEST_REPO c) ["git", "rev-parse", "HEAD"],
        Event.gitCall (LUXTEST_REPO c) ["git", "log", "-1", "--format=%s", "HEAD"]],
       Except.ok ["USD:\n" ++ pyStrip sU ++ "\n" ++ pyStrip hU,
                  "luxtest:\n" ++ pyStrip sL ++ "\n" ++ pyStrip hL]) := by
  have gU := get_repo_info_ok w c "USD" (USD_REPO c) hU sU (lookup_USD c) h1 h2
  have gL := get_repo_info_ok w c "luxtest" (LUXTEST_REPO c) hL sL (lookup_luxtest c) h3 h4
  show gatherRepoInfos w c ["USD", "luxtest"] = _
  simp [gatherRepoInfos, Except.map, gU, gL]

theorem get_git_hash_fst (w : GitWorld) (d : String) :
    (get_git_hash w d).1 = [Event.gitCall d ["git", "rev-parse", "HEAD"]] := by
  simp [get_git_hash, git_stdout_fst]

theorem git_commit_subject_fst (w : GitWorld) (d : String) :
    (git_commit_subject w d).1 =
      [Event.gitCall d ["git", "log", "-1", "--format=%s", "HEAD"]] := by
  simp [git_commit_subject, git_stdout_fst]

theorem get_repo_info_events (w : GitWorld) (c : Config) (n : String) :
    ∀ e ∈ (get_repo_info w c n).1, ∃ d a, e = Event.gitCall d a := by
  intro e he
  rcases hl : (REPO_NAMES_TO_DIRS c).lookup n with _ | dir
  · simp [get_repo_info, hl] at he
  · rcases h1 : (get_git_hash w dir).2 with e1 | v1
    · simp only [get_repo_info, hl, h1, get_git_hash_fst, List.mem_singleton] at he
      exact ⟨dir, ["git", "rev-parse", "HEAD"], he⟩
    · rcases h2 : (git_commit_subject w dir).2 with e2 | v2 <;>
        · simp only [get_repo_info, hl, h1, h2, get_git_hash_fst, git_commit_subject_fst,
            List.mem_append, List.mem_singleton] at he
          rcases he with he | he
          · exact ⟨dir, ["git", "rev-parse", "HEAD"], he⟩
          · exact ⟨dir, ["git", "log", "-1", "--format=%s", "HEAD"], he⟩

theorem gatherRepoInfos_events (w : GitWorld) (c : Config) (names : List String) :
    ∀ e ∈ (gatherRepoInfos w c names).1, ∃ d a, e = Event.gitCall d a := by
  induction names with
  | nil => intro e he; simp [gatherRepoInfos] at he
  | cons name rest ih =>
    intro e he
    rcases h1 : (get_repo_info w c name).2 with e1 | v1 <;>
      simp only [gatherRepoInfos, h1, List.mem_append] at he
    · exact get_repo_info_events w c name e he
    · rcases he with he | he
      · exact get_repo_info_events w c name e he
      · exact ih e he

/-! ### Claims -/

/-- C1: for every pair of repository info results (USD and luxtest, in that
configured order), the message body that `commit_renders` assembles contains
both repos' info blocks in that order, prepended by the user-supplied message
when it is non-empty and by the placeholder text when it is empty, the parts
joined by blank lines: with a message it is passed via `-m` to the commit
invocation, without one it is the contents of the template file. -/
theorem c1_assembled_message_contains_both_repos_in_order
    (w : GitWorld) (c : Config) (cwd tempd msg : String) (extra_paths : List String)
    (hU sU hL sL : String)
    (h1 : w (USD_REPO c) ["git", "rev-parse", "HEAD"] = GitOutcome.success hU)
    (h2 : w (USD_REPO c) ["git", "log", "-1", "--format=%s", "HEAD"] = GitOutcome.success sU)
    (h3 : w (LUXTEST_REPO c) ["git", "rev-parse", "HEAD"] = GitOutcome.success hL)
    (h4 : w (LUXTEST_REPO c) ["git", "log", "-1", "--format=%s", "HEAD"] = GitOutcome.success sL) :
    (msg ≠ "" →
      Event.gitCall (RENDERS_REPO c)
        (["git", "commit", "-m",
            String.intercalate "\n\n"
              [msg, "USD:\n" ++ pyStrip sU ++ "\n" ++ pyStrip hU,
               "luxtest:\n" ++ pyStrip sL ++ "\n" ++ pyStrip hL], "-a"]
          ++ extra_paths.map (fun p => os_path_join cwd p))
        ∈ (commit_renders w c cwd tempd msg extra_paths).1) ∧
    (msg = "" →
      Event.fileWrite (os_path_join tempd "git_commit_template.txt")
        (String.intercalate "\n\n"
          ["<insert custom message here>", "USD:\n" ++ pyStrip sU ++ "\n" ++ pyStrip hU,
           "luxtest:\n" ++ pyStrip sL ++ "\n" ++ pyStrip hL])
        ∈ (commit_renders w c cwd tempd msg extra_paths).1) := by
  have hg := gather_ok w c hU sU hL sL h1 h2 h3 h4
  constructor
  · intro hmsg
    simp [commit_renders, hg, hmsg, git_fst]
  · intro hmsg
    subst hmsg
    simp [commit_renders, hg, git_fst]

theorem c1_witness :
    Event.gitCall "/home/u/luxtest/renders"
      ["git", "commit", "-m",
        "hello\n\nUSD:\na subject\nabc123\n\nluxtest:\na subject\nabc123", "-a"]
      ∈ (commit_renders testWorld testConfig "/cwd" "/tmp/t1" "hello" []).1 := by
  have h := (c1_assembled_message_contains_both_repos_in_order testWorld testConfig
      "/cwd" "/tmp/t1" "hello" [] "abc123\n" "a subject\n" "abc123\n" "a subject\n"
      rfl rfl rfl rfl).1 (by decide)
  exact h

/-- C2: for every argument vector accepted by the parser, `main` returns exit
code 0 when `commit_renders` completes without raising, and returns exit code
1 when `commit_renders` raises any exception (in particular a failing tool
invocation, which raises `CalledProcessError`); the traceback printing has no
bearing on the returned code. -/
theorem c2_main_exit_codes
    (w : GitWorld) (c : Config) (cwd tempd : String) (argv : List String)
    (pa : ParsedArgs) (hp : parse_args argv = Except.ok pa) :
    ((commit_renders w c cwd tempd pa.message pa.extra_paths).2 = Except.ok () →
        (main w c cwd tempd argv).2 = Except.ok 0) ∧
    (∀ err, (commit_renders w c cwd tempd pa.message pa.extra_paths).2 = Except.error err →
        (main w c cwd tempd argv).2 = Except.ok 1) := by
  constructor
  · intro h
    simp [main, hp, h]
  · intro err h
    simp [main, hp, h]

theorem c2_witness :
    (main testWorld testConfig "/cwd" "/tmp/t1" []).2 = Except.ok 0 ∧
    (main commitFailWorld testConfig "/cwd" "/tmp/t1" []).2 = Except.ok 1 := by
  constructor
  · exact (c2_main_exit_codes testWorld testConfig "/cwd" "/tmp/t1" []
      { message := "", extra_paths := [] } rfl).1 rfl
  · exact (c2_main_exit_codes commitFailWorld testConfig "/cwd" "/tmp/t1" []
      { message := "", extra_paths := [] } rfl).2
      (Err.calledProcessError "/home/u/luxtest/renders"
        ["git", "-c", "commit.template=/tmp/t1/git_commit_template.txt", "commit", "-a"] 1)
      rfl

/-- C3: when no message is supplied (and the info queries succeed), the whole
observable behaviour of `commit_renders` is: the four info invocations, the
creation of a temporary directory, the write of a template file inside it
containing the placeholder text followed by the repo info blocks, a commit
invocation configured via `-c commit.template=<file>` and carrying no `-m`
(interactive commit), and the removal of the temporary directory after that
invocation. -/
theorem c3_no_message_template_file_lifecycle
    (w : GitWorld) (c : Config) (cwd tempd : String) (extra_paths : List String)
    (hU sU hL sL : String)
    (h1 : w (USD_REPO c) ["git", "rev-parse", "HEAD"] = GitOutcome.success hU)
    (h2 : w (USD_REPO c) ["git", "log", "-1", "--format=%s", "HEAD"] = GitOutcome.success sU)
    (h3 : w (LUXTEST_REPO c) ["git", "rev-parse", "HEAD"] = GitOutcome.success hL)
    (h4 : w (LUXTEST_REPO c) ["git", "log", "-1", "--format=%s", "HEAD"] = GitOutcome.success sL) :
    (commit_renders w c cwd tempd "" extra_paths).1 =
      [Event.gitCall (USD_REPO c) ["git", "rev-parse", "HEAD"],
       Event.gitCall (USD_REPO c) ["git", "log", "-1", "--format=%s", "HEAD"],
       Event.gitCall (LUXTEST_REPO c) ["git", "rev-parse", "HEAD"],
       Event.gitCall (LUXTEST_REPO c) ["git", "log", "-1", "--format=%s", "HEAD"],
       Event.tempDirCreate tempd,
       Event.fileWrite (os_path_join tempd "git_commit_template.txt")
         (String.intercalate "\n\n"
           ["<insert custom message here>",
            "USD:\n" ++ pyStrip sU ++ "\n" ++ pyStrip hU,
            "luxtest:\n" ++ pyStrip sL ++ "\n" ++ pyStrip hL]),
       Event.gitCall (RENDERS_REPO c)
         ("git" :: "-c" :: ("commit.template=" ++ os_path_join tempd "git_commit_template.txt")
           :: "commit" :: "-a" :: extra_paths.map (fun p => os_path_join cwd p)),
       Event.tempDirRemove tempd] := by
  have hg := gather_ok w c hU sU hL sL h1 h2 h3 h4
  simp [commit_renders, hg, git_fst]

theorem c3_witness :
    (commit_renders testWorld testConfig "/cwd" "/tmp/t1" "" ["x.png"]).1 =
      [Event.gitCall "/home/u/usd-ci/USD" ["git", "rev-parse", "HEAD"],
       Event.gitCall "/home/u/usd-ci/USD" ["git", "log", "-1", "--format=%s", "HEAD"],
       Event.gitCall "/home/u/luxtest" ["git", "rev-parse", "HEAD"],
       Event.gitCall "/home/u/luxtest" ["git", "log", "-1", "--format=%s", "HEAD"],
       Event.tempDirCreate "/tmp/t1",
       Event.fileWrite "/tmp/t1/git_commit_template.txt"
         "<insert custom message here>\n\nUSD:\na subject\nabc123\n\nluxtest:\na subject\nabc123",
       Event.gitCall "/home/u/luxtest/renders"
         ["git", "-c", "commit.template=/tmp/t1/git_commit_template.txt", "commit", "-a",
          "/cwd/x.png"],
       Event.tempDirRemove "/tmp/t1"] := by
  have h := c3_no_message_template_file_lifecycle testWorld testConfig "/cwd" "/tmp/t1"
    ["x.png"] "abc123\n" "a subject\n" "abc123\n" "a subject\n" rfl rfl rfl rfl
  exact h

theorem commit_renders_msg_events_gitCall
    (w : GitWorld) (c : Config) (cwd tempd msg : String) (extra_paths : List String)
    (hmsg : msg ≠ "") :
    ∀ e ∈ (commit_renders w c cwd tempd msg extra_paths).1, ∃ d a, e = Event.gitCall d a := by
  intro e he
  rcases hr : (gatherRepoInfos w c ((REPO_NAMES_TO_DIRS c).map Prod.fst)).2 with er | parts
  · simp only [commit_renders, hr] at he
    exact gatherRepoInfos_events w c _ e he
  · simp only [commit_renders, hr, hmsg, if_true, ne_eq, not_false_eq_true, if_pos,
      git_fst, List.mem_append, List.mem_singleton] at he
    rcases he with he | he
    · exact gatherRepoInfos_events w c _ e he
    · exact ⟨_, _, he⟩

/-- C4: with a non-empty message, every observable effect of `commit_renders`
is a subprocess invocation (so no temporary directory is created or removed
and no file is written, whatever the tool answers), and when the info queries
succeed the trace is exactly the four info invocations followed by one direct
commit invocation `git commit -m <full message> -a <joined extra paths>`. -/
theorem c4_message_branch_direct_commit_no_tempfile
    (w : GitWorld) (c : Config) (cwd tempd msg : String) (extra_paths : List String)
    (hmsg : msg ≠ "") :
    (∀ e ∈ (commit_renders w c cwd tempd msg extra_paths).1, ∃ d a, e = Event.gitCall d a) ∧
    (∀ hU sU hL sL : String,
      w (USD_REPO c) ["git", "rev-parse", "HEAD"] = GitOutcome.success hU →
      w (USD_REPO c) ["git", "log", "-1", "--format=%s", "HEAD"] = GitOutcome.success sU →
      w (LUXTEST_REPO c) ["git", "rev-parse", "HEAD"] = GitOutcome.success hL →
      w (LUXTEST_REPO c) ["git", "log", "-1", "--format=%s", "HEAD"] = GitOutcome.success sL →
      (commit_renders w c cwd tempd msg extra_paths).1 =
        [Event.gitCall (USD_REPO c) ["git", "rev-parse", "HEAD"],
         Event.gitCall (USD_REPO c) ["git", "log", "-1", "--format=%s", "HEAD"],
         Event.gitCall (LUXTEST_REPO c) ["git", "rev-parse", "HEAD"],
         Event.gitCall (LUXTEST_REPO c) ["git", "log", "-1", "--format=%s", "HEAD"],
         Event.gitCall (RENDERS_REPO c)
           ("git" :: "commit" :: "-m" ::
             String.intercalate "\n\n"
               [msg, "USD:\n" ++ pyStrip sU ++ "\n" ++ pyStrip hU,
                "luxtest:\n" ++ pyStrip sL ++ "\n" ++ pyStrip hL] ::
             "-a" :: extra_paths.map (fun p => os_path_join cwd p))]) := by
  constructor
  · exact commit_renders_msg_events_gitCall w c cwd tempd msg extra_paths hmsg
  · intro hU sU hL sL h1 h2 h3 h4
    have hg := gather_ok w c hU sU hL sL h1 h2 h3 h4
    simp [commit_renders, hg, hmsg, git_fst]

theorem c4_witness :
    (commit_renders testWorld testConfig "/cwd" "/tmp/t1" "hello" ["x.png"]).1 =
      [Event.gitCall "/home/u/usd-ci/USD" ["git", "rev-parse", "HEAD"],
       Event.gitCall "/home/u/usd-ci/USD" ["git", "log", "-1", "--format=%s", "HEAD"],
       Event.gitCall "/home/u/luxtest" ["git", "rev-parse", "HEAD"],
       Event.gitCall "/home/u/luxtest" ["git", "log", "-1", "--format=%s", "HEAD"],
       Event.gitCall "/home/u/luxtest/renders"
         ["git", "commit", "-m",
          "hello\n\nUSD:\na subject\nabc123\n\nluxtest:\na subject\nabc123", "-a",
          "/cwd/x.png"]] :=
  (c4_message_branch_direct_commit_no_tempfile testWorld testConfig "/cwd" "/tmp/t1"
    "hello" ["x.png"] (by decide)).2 "abc123\n" "a subject\n" "abc123\n" "a subject\n"
    rfl rfl rfl rfl

/-- C5: in the no-message path (info queries succeeding), the temporary
directory is removed after the commit invocation in every outcome: the trace
always ends with the removal event (with the creation event earlier in it),
both when the commit invocation succeeds — `commit_renders` then returns
normally — and when it exits nonzero — `commit_renders` then raises
`CalledProcessError`. -/
theorem c5_tempdir_removed_on_success_and_on_failure
    (w : GitWorld) (c : Config) (cwd tempd : String) (extra_paths : List String)
    (hU sU hL sL : String)
    (h1 : w (USD_REPO c) ["git", "rev-parse", "HEAD"] = GitOutcome.success hU)
    (h2 : w (USD_REPO c) ["git", "log", "-1", "--format=%s", "HEAD"] = GitOutcome.success sU)
    (h3 : w (LUXTEST_REPO c) ["git", "rev-parse", "HEAD"] = GitOutcome.success hL)
    (h4 : w (LUXTEST_REPO c) ["git", "log", "-1", "--format=%s", "HEAD"] = GitOutcome.success sL) :
    (∃ pre, (commit_renders w c cwd tempd "" extra_paths).1 =
        pre ++ [Event.tempDirRemove tempd] ∧ Event.tempDirCreate tempd ∈ pre) ∧
    (∀ out, w (RENDERS_REPO c)
        ("git" :: "-c" :: ("commit.template=" ++ os_path_join tempd "git_commit_template.txt")
          :: "commit" :: "-a" :: extra_paths.map (fun p => os_path_join cwd p)) =
        GitOutcome.success out →
      (commit_renders w c cwd tempd "" extra_paths).2 = Except.ok ()) ∧
    (∀ code, w (RENDERS_REPO c)
        ("git" :: "-c" :: ("commit.template=" ++ os_path_join tempd "git_commit_template.txt")
          :: "commit" :: "-a" :: extra_paths.map (fun p => os_path_join cwd p)) =
        GitOutcome.failure code →
      (commit_renders w c cwd tempd "" extra_paths).2 =
        Except.error (Err.calledProcessError (RENDERS_REPO c)
          ("git" :: "-c" :: ("commit.template=" ++ os_path_join tempd "git_commit_template.txt")
            :: "commit" :: "-a" :: extra_paths.map (fun p => os_path_join cwd p)) code)) := by
  have hg := gather_ok w c hU sU hL sL h1 h2 h3 h4
  refine ⟨?_, ?_, ?_⟩
  · refine ⟨[Event.gitCall (USD_REPO c) ["git", "rev-parse", "HEAD"],
      Event.gitCall (USD_REPO c) ["git", "log", "-1", "--format=%s", "HEAD"],
      Event.gitCall (LUXTEST_REPO c) ["git", "rev-parse", "HEAD"],
      Event.gitCall (LUXTEST_REPO c) ["git", "log", "-1", "--format=%s", "HEAD"],
      Event.tempDirCreate tempd,
      Event.fileWrite (os_path_join tempd "git_commit_template.txt")
        (String.intercalate "\n\n"
          ["<insert custom message here>",
           "USD:\n" ++ pyStrip sU ++ "\n" ++ pyStrip hU,
           "luxtest:\n" ++ pyStrip sL ++ "\n" ++ pyStrip hL]),
      Event.gitCall (RENDERS_REPO c)
        ("git" :: "-c" :: ("commit.template=" ++ os_path_join tempd "git_commit_template.txt")
          :: "commit" :: "-a" :: extra_paths.map (fun p => os_path_join cwd p))], ?_, ?_⟩
    · simp [commit_renders, hg, git_fst]
    · simp
  · intro out hw
    simp [commit_renders, hg, git, Except.map, hw]
  · intro code hw
    simp [commit_renders, hg, git, Except.map, hw]

theorem c5_witness :
    Event.tempDirRemove "/tmp/t1" ∈
      (commit_renders testWorld testConfig "/cwd" "/tmp/t1" "" []).1 ∧
    (commit_renders testWorld testConfig "/cwd" "/tmp/t1" "" []).2 = Except.ok () ∧
    Event.tempDirRemove "/tmp/t1" ∈
      (commit_renders commitFailWorld testConfig "/cwd" "/tmp/t1" "" []).1 ∧
    (commit_renders commitFailWorld testConfig "/cwd" "/tmp/t1" "" []).2 =
      Except.error (Err.calledProcessError "/home/u/luxtest/renders"
        ["git", "-c", "commit.template=/tmp/t1/git_commit_template.txt", "commit", "-a"] 1) := by
  have hok := c5_tempdir_removed_on_success_and_on_failure testWorld testConfig "/cwd" "/tmp/t1"
    [] "abc123\n" "a subject\n" "abc123\n" "a subject\n" rfl rfl rfl rfl
  have hfail := c5_tempdir_removed_on_success_and_on_failure commitFailWorld testConfig "/cwd"
    "/tmp/t1" [] "abc123\n" "a subject\n" "abc123\n" "a subject\n" rfl rfl rfl rfl
  obtain ⟨pre1, hp1, _⟩ := hok.1
  obtain ⟨pre2, hp2, _⟩ := hfail.1
  refine ⟨?_, hok.2.1 "" rfl, ?_, hfail.2.2 1 rfl⟩
  · simp [hp1]
  · simp [hp2]

/-- C6: for every repository name with a configured directory, `get_repo_info`
raises (the exception propagating to the caller) whenever the tool invocation
against that directory exits nonzero: if `rev-parse` fails the whole call
fails right there, and if `rev-parse` succeeds but the `log` query fails the
call fails then; in each case the trace is exactly the invocations so far, so
nothing is retried and no recovery is attempted. -/
theorem c6_get_repo_info_fails_on_nonzero_exit
    (w : GitWorld) (c : Config) (n d : String)
    (hdir : (REPO_NAMES_TO_DIRS c).lookup n = some d) :
    (∀ code, w d ["git", "rev-parse", "HEAD"] = GitOutcome.failure code →
      get_repo_info w c n =
        ([Event.gitCall d ["git", "rev-parse", "HEAD"]],
         Except.error (Err.calledProcessError d ["git", "rev-parse", "HEAD"] code))) ∧
    (∀ out code, w d ["git", "rev-parse", "HEAD"] = GitOutcome.success out →
      w d ["git", "log", "-1", "--format=%s", "HEAD"] = GitOutcome.failure code →
      get_repo_info w c n =
        ([Event.gitCall d ["git", "rev-parse", "HEAD"],
          Event.gitCall d ["git", "log", "-1", "--format=%s", "HEAD"]],
         Except.error
           (Err.calledProcessError d ["git", "log", "-1", "--format=%s", "HEAD"] code))) := by
  constructor
  · intro code h
    simp [get_repo_info, hdir, get_git_hash, git_commit_subject, git_stdout, git,
      Except.map, h]
  · intro out code hok h
    simp [get_repo_info, hdir, get_git_hash, git_commit_subject, git_stdout, git,
      Except.map, hok, h]

theorem c6_witness :
    get_repo_info failWorld testConfig "USD" =
      ([Event.gitCall "/home/u/usd-ci/USD" ["git", "rev-parse", "HEAD"]],
       Except.error (Err.calledProcessError "/home/u/usd-ci/USD"
         ["git", "rev-parse", "HEAD"] 128)) := by
  have h := (c6_get_repo_info_fails_on_nonzero_exit failWorld testConfig "USD"
    "/home/u/usd-ci/USD" rfl).1 128 rfl
  exact h

/-- C7: `USD_REPO` is the value of the `USD_ROOT` environment variable when it
is set, and otherwise the default path, i.e. the sibling `usd-ci/USD` of the
luxtest repository (the parent directory of the luxtest directory, joined with
`usd-ci` and `USD`). -/
theorem c7_usd_root_env_override (d v : String) :
    USD_REPO { thisDir := d, usdRoot := some v } = v ∧
    USD_REPO { thisDir := d, usdRoot := none } =
      os_path_join
        (os_path_join (dirname (LUXTEST_REPO { thisDir := d, usdRoot := none })) "usd-ci")
        "USD" ∧
    USD_REPO testConfig = "/home/u/usd-ci/USD" :=
  ⟨rfl, rfl, rfl⟩

/-- Two configurations identical except for the USD directory. -/
def cfgA : Config := { thisDir := "/home/u/luxtest/renders", usdRoot := some "/repoA" }

/-- Second configuration for the C8 counterexample. -/
def cfgB : Config := { thisDir := "/home/u/luxtest/renders", usdRoot := some "/repoB" }

/-- C8 counterexample: the value returned by `get_repo_info` is a formatted
string, not a record with a `directory` field — two configurations whose USD
directories differ yield the identical return value, so the result does not
comprise the directory. -/
theorem c8_counterexample_no_directory_field :
    USD_REPO cfgA ≠ USD_REPO cfgB ∧
    (get_repo_info testWorld cfgA "USD").2 = (get_repo_info testWorld cfgB "USD").2 ∧
    (get_repo_info testWorld cfgA "USD").2 = Except.ok "USD:\na subject\nabc123" :=
  ⟨by decide, rfl, rfl⟩

/-- C8 (amended): for every repository name with a configured directory,
`get_repo_info` returns the formatted string `name:\n<subject_line>\n<commit
hash>`, where the hash and the subject line are derived on demand by invoking
the tool (`rev-parse HEAD`, then `log -1 --format=%s HEAD`) against that
directory, nothing being persisted — the directory is used for the
invocations but is not a component of the returned value. -/
theorem c8_info_string_fields
    (w : GitWorld) (c : Config) (n d hsh sub : String)
    (hdir : (REPO_NAMES_TO_DIRS c).lookup n = some d)
    (h1 : w d ["git", "rev-parse", "HEAD"] = GitOutcome.success hsh)
    (h2 : w d ["git", "log", "-1", "--format=%s", "HEAD"] = GitOutcome.success sub) :
    get_repo_info w c n =
      ([Event.gitCall d ["git", "rev-parse", "HEAD"],
        Event.gitCall d ["git", "log", "-1", "--format=%s", "HEAD"]],
       Except.ok (n ++ ":\n" ++ pyStrip sub ++ "\n" ++ pyStrip hsh)) :=
  get_repo_info_ok w c n d hsh sub hdir h1 h2

theorem c8_witness :
    get_repo_info testWorld testConfig "luxtest" =
      ([Event.gitCall "/home/u/luxtest" ["git", "rev-parse", "HEAD"],
        Event.gitCall "/home/u/luxtest" ["git", "log", "-1", "--format=%s", "HEAD"]],
       Except.ok "luxtest:\na subject\nabc123") := by
  have h := c8_info_string_fields testWorld testConfig "luxtest" "/home/u/luxtest"
    "abc123\n" "a subject\n" rfl rfl rfl
  exact h

/-- C9: in both branches (message supplied and not), the commit invocation
run by `commit_renders` ends with the extra paths in their given order, each
first joined to the current working directory; the join of `os.path.join`
passes an absolute path (leading slash) through unchanged and resolves a
relative path against the cwd. -/
theorem c9_extra_paths_joined_to_cwd_in_order
    (w : GitWorld) (c : Config) (cwd tempd msg : String) (extra_paths : List String)
    (hU sU hL sL : String)
    (h1 : w (USD_REPO c) ["git", "rev-parse", "HEAD"] = GitOutcome.success hU)
    (h2 : w (USD_REPO c) ["git", "log", "-1", "--format=%s", "HEAD"] = GitOutcome.success sU)
    (h3 : w (LUXTEST_REPO c) ["git", "rev-parse", "HEAD"] = GitOutcome.success hL)
    (h4 : w (LUXTEST_REPO c) ["git", "log", "-1", "--format=%s", "HEAD"] = GitOutcome.success sL) :
    (∃ front, Event.gitCall (RENDERS_REPO c)
        (front ++ extra_paths.map (fun p => os_path_join cwd p)) ∈
      (commit_renders w c cwd tempd msg extra_paths).1) ∧
    (∀ p, pyStartsWith p "/" = true → os_path_join cwd p = p) ∧
    (∀ p, pyStartsWith p "/" = false → cwd ≠ "" → pyEndsWith cwd "/" = false →
      os_path_join cwd p = cwd ++ "/" ++ p) := by
  have hg := gather_ok w c hU sU hL sL h1 h2 h3 h4
  refine ⟨?_, ?_, ?_⟩
  · by_cases hm : msg = ""
    · subst hm
      exact ⟨"git" :: "-c" ::
          ("commit.template=" ++ os_path_join tempd "git_commit_template.txt") ::
          "commit" :: ["-a"],
        by simp [commit_renders, hg, git_fst]⟩
    · exact ⟨"git" :: "commit" :: "-m" ::
          String.intercalate "\n\n"
            [msg, "USD:\n" ++ pyStrip sU ++ "\n" ++ pyStrip hU,
             "luxtest:\n" ++ pyStrip sL ++ "\n" ++ pyStrip hL] :: ["-a"],
        by simp [commit_renders, hg, hm, git_fst]⟩
  · intro p hp
    simp [os_path_join, hp]
  · intro p hp h0 hs
    simp [os_path_join, hp, h0, hs]

theorem c9_witness :
    os_path_join "/cwd" "/abs/y.png" = "/abs/y.png" ∧
    os_path_join "/cwd" "x.png" = "/cwd/x.png" := by
  have h := c9_extra_paths_joined_to_cwd_in_order testWorld testConfig "/cwd" "/tmp/t1"
    "hello" ["x.png", "/abs/y.png"] "abc123\n" "a subject\n" "abc123\n" "a subject\n"
    rfl rfl rfl rfl
  exact ⟨h.2.1 "/abs/y.png" rfl, h.2.2 "x.png" rfl (by decide) rfl⟩

/-- C10: `commit_renders` takes the interactive template branch exactly when
the supplied message is the empty string: under succeeding info queries a
temporary directory is created if and only if the message is empty; moreover
the CLI option `-m` defaults to the empty string, so invoking `main` with an
explicit `-m ""` behaves identically to invoking it with no message at all. -/
theorem c10_template_branch_iff_empty_message
    (w : GitWorld) (c : Config) (cwd tempd msg : String) (extra_paths : List String)
    (hU sU hL sL : String)
    (h1 : w (USD_REPO c) ["git", "rev-parse", "HEAD"] = GitOutcome.success hU)
    (h2 : w (USD_REPO c) ["git", "log", "-1", "--format=%s", "HEAD"] = GitOutcome.success sU)
    (h3 : w (LUXTEST_REPO c) ["git", "rev-parse", "HEAD"] = GitOutcome.success hL)
    (h4 : w (LUXTEST_REPO c) ["git", "log", "-1", "--format=%s", "HEAD"] = GitOutcome.success sL) :
    ((∃ t, Event.tempDirCreate t ∈ (commit_renders w c cwd tempd msg extra_paths).1) ↔
      msg = "") ∧
    parse_args ["-m", ""] = Except.ok { message := "", extra_paths := [] } ∧
    parse_args [] = Except.ok { message := "", extra_paths := [] } ∧
    main w c cwd tempd ["-m", ""] = main w c cwd tempd [] := by
  refine ⟨⟨?_, ?_⟩, rfl, rfl, rfl⟩
  · rintro ⟨t, ht⟩
    by_contra hm
    obtain ⟨d, a, he⟩ :=
      commit_renders_msg_events_gitCall w c cwd tempd msg extra_paths hm _ ht
    exact Event.noConfusion he
  · intro hm
    subst hm
    exact ⟨tempd, by simp [commit_renders, gather_ok w c hU sU hL sL h1 h2 h3 h4, git_fst]⟩

theorem c10_witness :
    main testWorld testConfig "/cwd" "/tmp/t1" ["-m", ""] =
      main testWorld testConfig "/cwd" "/tmp/t1" [] ∧
    parse_args ["-m", ""] = Except.ok { message := "", extra_paths := [] } ∧
    Event.tempDirCreate "/tmp/t1" ∈
      (commit_renders testWorld testConfig "/cwd" "/tmp/t1" "" []).1 := by
  have hA := c10_template_branch_iff_empty_message testWorld testConfig "/cwd" "/tmp/t1"
    "" [] "abc123\n" "a subject\n" "abc123\n" "a subject\n" rfl rfl rfl rfl
  refine ⟨hA.2.2.2, hA.2.1, ?_⟩
  obtain ⟨t, ht⟩ := hA.1.mpr rfl
  exact by decide

end Commit
